import Mathlib

/-!
Verification of the Endee RAG Assistant.

The frontend (src/frontend) is embedded shallowly: each React event handler
becomes a pure transition function on an explicit state record, and each
axios call site becomes a function from an abstract HTTP transport to a
result.  JavaScript truthiness of strings is modelled explicitly.  The
backend core (chunker, retriever, orchestrator) is not present in the
sources, so those components are modelled from the specification text; each
such definition says so in its doc comment.
-/

namespace EndeeRag

/-- JavaScript `a || b` on strings: the empty string is falsy. -/
def jsOrString (a b : String) : String :=
  if a = "" then b else a

/-- JavaScript `s.trim()`: strip leading and trailing whitespace. -/
def jsTrim (s : String) : String :=
  ((s.toList.dropWhile Char.isWhitespace).reverse.dropWhile
    Char.isWhitespace).reverse.asString

/-- JavaScript `a?.b || c` where the chain may be absent: `none` and the
empty string are falsy. -/
def jsOrOpt (a : Option String) (b : String) : String :=
  match a with
  | none => b
  | some s => jsOrString s b

/-! ### API layer (src/frontend/src/services/api.ts) -/

/-- One entry of the `sources` array of an ask response: field `text` and
optional field `metadata` (a map; values modelled as strings). -/
structure SourceItem where
  text : String
  metadata : Option (List (String × String))
deriving Repr, DecidableEq

/-- The `AskResponse` interface of api.ts: fields `answer` and `sources`. -/
structure AskResponse where
  answer : String
  sources : List SourceItem
deriving Repr, DecidableEq

/-- The `UploadResponse` interface of api.ts: fields `message` and
`filename`. -/
structure UploadResponse where
  message : String
  filename : String
deriving Repr, DecidableEq

/-- The JSON body posted by `askQuestion`: a single field `question`. -/
structure AskBody where
  question : String
deriving Repr, DecidableEq

/-- An HTTP request issued by `askQuestion`: path plus JSON body. -/
structure AskRequest where
  path : String
  body : AskBody
deriving Repr, DecidableEq

/-- Outcome of an axios POST as observed in the catch clause of api.ts:
either a success with a parsed body, an axios error whose
`error.response?.data?.error` chain yields an optional string, or a
non-axios failure. -/
inductive HttpOutcome (β : Type) where
  | success (body : β)
  | axiosFailure (errField : Option String)
  | otherFailure
deriving Repr, DecidableEq

/-- The request `askQuestion` builds: a POST to `/ask` whose body is the
single-field object `question`. -/
def askRequest (question : String) : AskRequest :=
  { path := "/ask", body := { question := question } }

/-- `askQuestion` of api.ts.  The axios transport is abstracted as a
function from the issued request to an `HttpOutcome`; a thrown `Error` is
an `Except.error` carrying the error message. -/
def askQuestion (transport : AskRequest → HttpOutcome AskResponse)
    (question : String) : Except String AskResponse :=
  match transport (askRequest question) with
  | .success body => .ok body
  | .axiosFailure errField => .error (jsOrOpt errField "Failed to get answer")
  | .otherFailure => .error "An unexpected error occurred while asking question"

/-- A file as the upload path sees it: name and MIME type (`File.name`,
`File.type`). -/
structure JsFile where
  name : String
  mimeType : String
deriving Repr, DecidableEq

/-- An HTTP request issued by `uploadDocument`: path plus the multipart
form data, a list of (form key, file) pairs. -/
structure UploadRequest where
  path : String
  formData : List (String × JsFile)
deriving Repr, DecidableEq

/-- The request `uploadDocument` builds: `formData.append('file', file)`
then `api.post('/upload', formData)`. -/
def uploadRequest (file : JsFile) : UploadRequest :=
  { path := "/upload", formData := [("file", file)] }

/-- `uploadDocument` of api.ts, with the axios transport abstracted as for
`askQuestion`. -/
def uploadDocument (transport : UploadRequest → HttpOutcome UploadResponse)
    (file : JsFile) : Except String UploadResponse :=
  match transport (uploadRequest file) with
  | .success body => .ok body
  | .axiosFailure errField => .error (jsOrOpt errField "Failed to upload document")
  | .otherFailure => .error "An unexpected error occurred during upload"

/-- A transport whose ask requests fail with a present-but-empty server
`error` field. -/
def emptyErrTransport : AskRequest → HttpOutcome AskResponse :=
  fun _ => .axiosFailure (some "")

/-! ### DocumentUpload component (document-upload.tsx) -/

/-- The `uploadStatus` state hook: `'idle' | 'success' | 'error'`. -/
inductive UploadStatus where
  | idle
  | success
  | error
deriving Repr, DecidableEq

/-- The state hooks of `DocumentUpload`, plus the value of the file input
element referenced by `fileInputRef`. -/
structure DUState where
  selectedFile : Option JsFile
  uploading : Bool
  uploadStatus : UploadStatus
  errorMessage : String
  successMessage : String
  isDragging : Bool
  fileInputValue : String
deriving Repr, DecidableEq

/-- The `validTypes` array of `handleFileSelect`. -/
def validTypes : List String := ["application/pdf", "text/plain"]

/-- `handleFileSelect` of document-upload.tsx: reject files whose MIME type
is not in `validTypes`, otherwise select the file and reset status. -/
def handleFileSelect (st : DUState) (file : JsFile) : DUState :=
  if validTypes.contains file.mimeType then
    { st with selectedFile := some file, uploadStatus := .idle, errorMessage := "" }
  else
    { st with errorMessage := "Please upload a PDF or TXT file", uploadStatus := .error }

/-- `handleUpload` of document-upload.tsx.  The awaited result of
`uploadDocument` is passed in explicitly; the second component of the
result collects the filenames passed to the `onUploadSuccess` callback. -/
def handleUpload (st : DUState) (result : Except String UploadResponse) :
    DUState × List String :=
  match st.selectedFile with
  | none => (st, [])
  | some _ =>
    match result with
    | .ok resp =>
      ({ st with
          uploading := false
          uploadStatus := .success
          errorMessage := ""
          successMessage := jsOrString resp.message "Document uploaded successfully"
          selectedFile := none
          fileInputValue := "" },
        [resp.filename])
    | .error msg =>
      ({ st with
          uploading := false
          uploadStatus := .error
          errorMessage := msg }, [])

/-! ### QuestionAnswer component (question-answer.tsx) -/

/-- The `type` field of a chat `Message`. -/
inductive MsgType where
  | user
  | assistant
deriving Repr, DecidableEq

/-- The `Message` interface of question-answer.tsx (the `timestamp` is an
opaque tick passed in by the caller). -/
structure Message where
  id : String
  type : MsgType
  content : String
  sources : Option (List SourceItem)
  timestamp : Nat
deriving Repr, DecidableEq

/-- The state hooks of `QuestionAnswer`. -/
structure QAState where
  messages : List Message
  inputValue : String
  isLoading : Bool
deriving Repr, DecidableEq

/-- Result of one `handleSubmit` run: the final component state, the list
of question bodies posted to `/ask`, and the sources lists passed to the
`onSourcesUpdate` callback. -/
structure SubmitResult where
  state : QAState
  posts : List String
  sourcesUpdates : List (List SourceItem)
deriving Repr, DecidableEq

/-- `handleSubmit` of question-answer.tsx.  `now` stands for `Date.now()`;
the awaited result of `askQuestion` on the posted question is passed in
explicitly.  The guard `!inputValue.trim() || isLoading` returns with
nothing changed and nothing posted. -/
def handleSubmit (st : QAState) (now : Nat)
    (result : Except String AskResponse) : SubmitResult :=
  if jsTrim st.inputValue = "" ∨ st.isLoading then
    { state := st, posts := [], sourcesUpdates := [] }
  else
    let userMessage : Message :=
      { id := toString now, type := .user, content := st.inputValue,
        sources := none, timestamp := now }
    match result with
    | .ok resp =>
      let assistantMessage : Message :=
        { id := toString (now + 1), type := .assistant, content := resp.answer,
          sources := some resp.sources, timestamp := now }
      { state :=
          { messages := st.messages ++ [userMessage, assistantMessage],
            inputValue := "", isLoading := false },
        posts := [st.inputValue],
        sourcesUpdates := [resp.sources] }
    | .error msg =>
      let errorMessage : Message :=
        { id := toString (now + 1), type := .assistant, content := msg,
          sources := none, timestamp := now }
      { state :=
          { messages := st.messages ++ [userMessage, errorMessage],
            inputValue := "", isLoading := false },
        posts := [st.inputValue],
        sourcesUpdates := [] }

/-! ### App component (App.tsx) -/

/-- The state hooks of `App`. -/
structure AppState where
  currentSources : List SourceItem
  uploadedFiles : List String
deriving Repr, DecidableEq

/-- `handleUploadSuccess` of App.tsx: append the uploaded filename. -/
def handleUploadSuccess (st : AppState) (filename : String) : AppState :=
  { st with uploadedFiles := st.uploadedFiles ++ [filename] }

/-- `handleSourcesUpdate` of App.tsx: replace the current sources. -/
def handleSourcesUpdate (st : AppState) (sources : List SourceItem) : AppState :=
  { st with currentSources := sources }

/-! ### Chunker (modelled from the spec; backend chunker.py is not in the
sources) -/

/-- Failure of the chunker on a bad configuration. -/
inductive ChunkError where
  | InvalidConfiguration
deriving Repr, DecidableEq

/-- A chunk: stable index, character-offset range `[start, stop)` into the
source text, and the extracted text. -/
structure Chunk where
  index : Nat
  start : Nat
  stop : Nat
  text : String
deriving Repr, DecidableEq

/-- Modelled from the spec: the sliding-window loop of `chunk` (backend
chunker.py is not in the sources).  Walk the text in a window of length
`size`, advancing by `size - ov` each step; the last window may be shorter
and ends the walk.  The spec leaves the boundary-snap lookback window
unspecified, so the model takes the implementer's choice of a lookback of
zero: every split is at the exact offset.  `fuel` is a termination bound,
always called with at least the text length. -/
def chunkGo (cs : List Char) (size ov : Nat) : Nat → Nat → Nat → List Chunk
  | 0, _, _ => []
  | fuel + 1, start, index =>
    if start < cs.length then
      let stop := min (start + size) cs.length
      let c : Chunk :=
        { index := index, start := start, stop := stop,
          text := ((cs.drop start).take (stop - start)).asString }
      if stop = cs.length then [c]
      else c :: chunkGo cs size ov fuel (start + (size - ov)) (index + 1)
    else []

/-- Modelled from the spec: `chunk(text, chunk_size, overlap)` (backend
chunker.py is not in the sources).  Fails with `InvalidConfiguration`
unless `chunk_size > 0` and `0 ≤ overlap < chunk_size`; empty or
whitespace-only text gives the empty sequence. -/
def chunk (text : String) (chunk_size overlap : Nat) : Except ChunkError (List Chunk) :=
  if 0 < chunk_size ∧ overlap < chunk_size then
    if text.toList.all (fun c => c.isWhitespace) then .ok []
    else .ok (chunkGo text.toList chunk_size overlap text.toList.length 0 0)
  else .error .InvalidConfiguration

/-- The chunk count the spec predicts: the ceiling of
`(len - overlap) / (chunk_size - overlap)`. -/
def specChunkCount (len chunk_size overlap : Nat) : Nat :=
  (len - overlap + (chunk_size - overlap) - 1) / (chunk_size - overlap)

/-! ### Vector Store Client and Retriever (modelled from the spec; backend
endee_client.py and retriever.py are not in the sources) -/

/-- Failure of the store query on a bad argument. -/
inductive StoreError where
  | InvalidArgument
deriving Repr, DecidableEq

/-- The persisted unit in the store: unique id, embedding vector, chunk
text, metadata map.  Vector components are modelled as rationals. -/
structure VectorRecord where
  id : Nat
  vector : List ℚ
  text : String
  metadata : List (String × String)
deriving Repr, DecidableEq

/-- A retrieved record re-exposed to the caller: text, metadata and
similarity score, with the record id kept for deduplication and
deterministic tie-breaking. -/
structure Source where
  id : Nat
  text : String
  metadata : List (String × String)
  score : ℚ
deriving Repr, DecidableEq

/-- Dot product of two vectors; by the spec the similarity metric is
cosine similarity, equivalently the dot product on L2-normalized vectors. -/
def dotProduct (u v : List ℚ) : ℚ :=
  (List.zipWith (fun a b => a * b) u v).sum

/-- Ranking order on scored records: descending similarity score, ties
broken by ascending id. -/
def recordRank (a b : VectorRecord × ℚ) : Prop :=
  b.2 < a.2 ∨ (a.2 = b.2 ∧ a.1.id ≤ b.1.id)

instance : DecidableRel recordRank := fun a b => by
  unfold recordRank; exact inferInstance

instance : IsTotal (VectorRecord × ℚ) recordRank where
  total a b := by
    unfold recordRank
    rcases lt_trichotomy a.2 b.2 with h | h | h
    · exact .inr (.inl h)
    · rcases Nat.le_total a.1.id b.1.id with hid | hid
      · exact .inl (.inr ⟨h, hid⟩)
      · exact .inr (.inr ⟨h.symm, hid⟩)
    · exact .inl (.inl h)

instance : IsTrans (VectorRecord × ℚ) recordRank where
  trans a b c hab hbc := by
    unfold recordRank at *
    rcases hab with h1 | ⟨h1, h1'⟩
    · rcases hbc with h2 | ⟨h2, _⟩
      · exact .inl (h2.trans h1)
      · exact .inl (h2 ▸ h1)
    · rcases hbc with h2 | ⟨h2, h2'⟩
      · exact .inl (h1 ▸ h2)
      · exact .inr ⟨h1.trans h2, h1'.trans h2'⟩

/-- Modelled from the spec: `query(vector, top_k)` of the Vector Store
Client (backend endee_client.py is not in the sources).  Scores every
record against the query vector, orders by descending similarity with ties
broken by ascending id, and returns the first `top_k`; `top_k ≤ 0` fails
with `InvalidArgument`. -/
def storeQuery (store : List VectorRecord) (v : List ℚ) (top_k : Int) :
    Except StoreError (List (VectorRecord × ℚ)) :=
  if top_k ≤ 0 then .error .InvalidArgument
  else
    .ok (((store.map (fun r => (r, dotProduct v r.vector))).insertionSort
      recordRank).take top_k.toNat)

/-- Re-exposing a scored record to the caller as a `Source`. -/
def toSource (p : VectorRecord × ℚ) : Source :=
  { id := p.1.id, text := p.1.text, metadata := p.1.metadata, score := p.2 }

/-- First-occurrence deduplication by id, the Retriever's defensive
re-assertion that no duplicate ids survive. -/
def dedupById (seen : List Nat) : List Source → List Source
  | [] => []
  | s :: rest =>
    if seen.contains s.id then dedupById seen rest
    else s :: dedupById (s.id :: seen) rest

/-- Modelled from the spec: `search(query_vector, top_k, score_threshold)`
of the Retriever (backend retriever.py is not in the sources).  Delegates
to the store query, deduplicates by id, then filters out results whose
score is below the threshold (default: no filtering) while preserving
order. -/
def search (store : List VectorRecord) (query_vector : List ℚ) (top_k : Int)
    (score_threshold : Option ℚ) : Except StoreError (List Source) :=
  (storeQuery store query_vector top_k).map (fun scored =>
    let deduped := dedupById [] (scored.map toSource)
    match score_threshold with
    | none => deduped
    | some t => deduped.filter (fun s => t ≤ s.score))

/-- Ranking order on sources: descending similarity score, ties broken by
ascending id. -/
def sourceRank (a b : Source) : Prop :=
  b.score < a.score ∨ (a.score = b.score ∧ a.id ≤ b.id)

/-! ### RAG Orchestrator (modelled from the spec; backend rag.py is not in
the sources) -/

/-- A grounded answer: generated text plus the ordered sources that were
included in the context. -/
structure Answer where
  text : String
  sources : List Source
deriving Repr, DecidableEq

/-- Failures surfaced by `answer`. -/
inductive RagError where
  | RetrievalError
  | GenerationError (msg : String)
deriving Repr, DecidableEq

/-- Modelled from the spec: the bounded-size context assembly of `answer`.
Retrieved chunk texts are taken in ranked order until the character budget
is reached; lower-ranked chunks are dropped first. -/
def selectContext : Nat → List Source → List Source
  | _, [] => []
  | budget, s :: rest =>
    if s.text.length ≤ budget then s :: selectContext (budget - s.text.length) rest
    else []

/-- Modelled from the spec: the grounding prompt of `answer`, embedding the
question and the selected context with an explicit answer-only-from-context
instruction. -/
def buildPrompt (question : String) (context : List Source) : String :=
  "Answer only from the supplied context.\nContext:\n"
    ++ String.intercalate "\n" (context.map (fun s => s.text))
    ++ "\nQuestion: " ++ question

/-- The default `top_k` of `answer` per the spec. -/
def defaultTopK : Int := 4

/-- The default context character budget of `answer`. -/
def contextBudget : Nat := 2000

/-- Modelled from the spec: `answer(query)` of the RAG Orchestrator
(backend rag.py is not in the sources).  Encodes the question, retrieves
with the default top-k and no score threshold, assembles the bounded
context, invokes the generative model on the grounding prompt, and returns
the generated text together with the sources actually included; an empty
retrieval still calls the model and yields an empty source list, and a
generative-model failure surfaces as `GenerationError`. -/
def answer (store : List VectorRecord) (encode : String → List ℚ)
    (generate : String → Except String String) (question : String) :
    Except RagError Answer :=
  match search store (encode question) defaultTopK none with
  | .error _ => .error .RetrievalError
  | .ok retrieved =>
    let context := selectContext contextBudget retrieved
    match generate (buildPrompt question context) with
    | .error msg => .error (.GenerationError msg)
    | .ok text => .ok { text := text, sources := context }

/-! ### SourcesPanel component (sources-panel.tsx) -/

/-- What the sources panel shows below its heading: the empty-state
placeholder or one collapsible item per source. -/
inductive PanelBody where
  | placeholder
  | items (sources : List SourceItem)
deriving Repr, DecidableEq

/-- The rendered sources panel: the subtitle line and the body. -/
structure RenderedPanel where
  subtitle : String
  body : PanelBody
deriving Repr, DecidableEq

/-- The render function of `SourcesPanel` in sources-panel.tsx: a total
function of the `sources` prop; zero sources render the
`No sources available` subtitle and the placeholder body, never an
error. -/
def SourcesPanel (sources : List SourceItem) : RenderedPanel :=
  { subtitle :=
      if sources.length > 0 then
        toString sources.length ++ " relevant document "
          ++ (if sources.length = 1 then "chunk" else "chunks") ++ " found"
      else "No sources available"
    body := if sources.length = 0 then .placeholder else .items sources }

/-! ### Concrete collaborators used by witnesses -/

/-- A transport whose ask requests fail with a non-empty server error. -/
def boomTransport : AskRequest → HttpOutcome AskResponse :=
  fun _ => .axiosFailure (some "boom")

/-- A transport that answers every ask request with a fixed body. -/
def okAskTransport : AskRequest → HttpOutcome AskResponse :=
  fun _ => .success { answer := "blue", sources := [] }

/-- A transport that answers every upload request with a fixed body. -/
def okUploadTransport : UploadRequest → HttpOutcome UploadResponse :=
  fun _ => .success { message := "Document uploaded successfully", filename := "a.txt" }

/-- An encoder mapping every text to the zero-length vector. -/
def constEncode : String → List ℚ := fun _ => []

/-- A generative model that always answers the same text. -/
def constGenerate : String → Except String String := fun _ => .ok "no answer"

/-! ### Claim theorems -/

/-- C1: `askQuestion` posts to `/ask` a body that is exactly the
single-field object `question`, and on a successful response returns
exactly the parsed response body, with no fields added, dropped or
renamed. -/
theorem askQuestion_request_shape_and_success
    (transport : AskRequest → HttpOutcome AskResponse) (q : String)
    (body : AskResponse) :
    (askRequest q).path = "/ask" ∧
    (askRequest q).body = { question := q } ∧
    (transport (askRequest q) = .success body →
      askQuestion transport q = .ok body) := by
  refine ⟨rfl, rfl, fun h => ?_⟩
  unfold askQuestion
  rw [h]

/-- C1 witness: the theorem applied to a concrete transport and question. -/
theorem askQuestion_request_shape_and_success_witness :
    (askRequest "What color is the sky?").path = "/ask" ∧
    (askRequest "What color is the sky?").body = { question := "What color is the sky?" } ∧
    (okAskTransport (askRequest "What color is the sky?") =
        .success { answer := "blue", sources := [] } →
      askQuestion okAskTransport "What color is the sky?" =
        .ok { answer := "blue", sources := [] }) :=
  askQuestion_request_shape_and_success okAskTransport "What color is the sky?"
    { answer := "blue", sources := [] }

/-- C2 counterexample: a failed ask whose response body has an `error`
field holding the empty string.  The claim says the thrown error carries
the server-supplied message whenever the field is present, but the code's
truthiness test replaces the empty string by the fallback message. -/
theorem askQuestion_empty_error_field_counterexample :
    askQuestion emptyErrTransport "q" = .error "Failed to get answer" ∧
    askQuestion emptyErrTransport "q" ≠ .error "" := by
  have h1 : askQuestion emptyErrTransport "q" = .error "Failed to get answer" := rfl
  refine ⟨h1, ?_⟩
  rw [h1]
  intro h
  exact absurd (Except.error.inj h) (by decide)

/-- C2 (amended): `askQuestion` returns a value if and only if the HTTP
call succeeded, and on failure throws an Error carrying the
server-supplied message when the response body has a non-empty `error`
field, and a fixed fallback message otherwise. -/
theorem askQuestion_failure_spec
    (transport : AskRequest → HttpOutcome AskResponse) (q : String) :
    (∀ r, askQuestion transport q = .ok r ↔ transport (askRequest q) = .success r) ∧
    (∀ s, transport (askRequest q) = .axiosFailure (some s) → s ≠ "" →
      askQuestion transport q = .error s) ∧
    (∀ errField, transport (askRequest q) = .axiosFailure errField →
      (∀ s, errField = some s → s = "") →
      askQuestion transport q = .error "Failed to get answer") ∧
    (transport (askRequest q) = .otherFailure →
      askQuestion transport q = .error "An unexpected error occurred while asking question") := by
  refine ⟨fun r => ?_, fun s h hs => ?_, fun errField h hempty => ?_, fun h => ?_⟩
  · unfold askQuestion
    cases htr : transport (askRequest q) with
    | success body => simp [htr]
    | axiosFailure errField => simp [htr]
    | otherFailure => simp [htr]
  · unfold askQuestion
    rw [h]
    simp [jsOrOpt, jsOrString, hs]
  · unfold askQuestion
    rw [h]
    cases errField with
    | none => rfl
    | some s => simp [jsOrOpt, jsOrString, hempty s rfl]
  · unfold askQuestion
    rw [h]

/-- C2 witness: the amended theorem applied to concrete transports,
discharging each hypothesis. -/
theorem askQuestion_failure_spec_witness :
    askQuestion boomTransport "q" = .error "boom" ∧
    askQuestion emptyErrTransport "q" = .error "Failed to get answer" ∧
    (askQuestion okAskTransport "q" = .ok { answer := "blue", sources := [] } ↔
      okAskTransport (askRequest "q") = .success { answer := "blue", sources := [] }) := by
  refine ⟨?_, ?_, ?_⟩
  · exact (askQuestion_failure_spec boomTransport "q").2.1 "boom" rfl (by decide)
  · exact (askQuestion_failure_spec emptyErrTransport "q").2.2.1 (some "") rfl
      (fun s hs => by cases hs; rfl)
  · exact (askQuestion_failure_spec okAskTransport "q").1 { answer := "blue", sources := [] }

/-- C3: `handleFileSelect` rejects a file whose MIME type is neither
`application/pdf` nor `text/plain`, recording the validation error and
leaving the selected file unchanged — so if nothing was selected before,
`handleUpload` still issues no upload request — and accepts a file of a
valid type, selecting it, clearing the error and resetting the status to
idle. -/
theorem handleFileSelect_spec (st : DUState) (file : JsFile) :
    (file.mimeType ∉ validTypes →
      handleFileSelect st file =
        { st with errorMessage := "Please upload a PDF or TXT file",
                  uploadStatus := .error } ∧
      (handleFileSelect st file).selectedFile = st.selectedFile ∧
      (st.selectedFile = none →
        ∀ result, handleUpload (handleFileSelect st file) result =
          (handleFileSelect st file, []))) ∧
    (file.mimeType ∈ validTypes →
      handleFileSelect st file =
        { st with selectedFile := some file, uploadStatus := .idle,
                  errorMessage := "" }) := by
  constructor
  · intro hbad
    have hsel : handleFileSelect st file =
        { st with errorMessage := "Please upload a PDF or TXT file",
                  uploadStatus := .error } := by
      unfold handleFileSelect
      rw [if_neg (by simpa using hbad)]
    refine ⟨hsel, by rw [hsel], fun hnone result => ?_⟩
    unfold handleUpload
    rw [hsel]
    simp [hnone]
  · intro hgood
    unfold handleFileSelect
    rw [if_pos (by simpa using hgood)]

/-- C3 witness: the theorem applied to a rejected PNG file and an accepted
plain-text file from a fresh component state. -/
theorem handleFileSelect_spec_witness :
    (handleFileSelect
        { selectedFile := none, uploading := false, uploadStatus := .idle,
          errorMessage := "", successMessage := "", isDragging := false,
          fileInputValue := "" }
        { name := "x.png", mimeType := "image/png" } =
      { selectedFile := none, uploading := false, uploadStatus := .error,
        errorMessage := "Please upload a PDF or TXT file", successMessage := "",
        isDragging := false, fileInputValue := "" }) ∧
    (handleFileSelect
        { selectedFile := none, uploading := false, uploadStatus := .idle,
          errorMessage := "", successMessage := "", isDragging := false,
          fileInputValue := "" }
        { name := "notes.txt", mimeType := "text/plain" } =
      { selectedFile := some { name := "notes.txt", mimeType := "text/plain" },
        uploading := false, uploadStatus := .idle, errorMessage := "",
        successMessage := "", isDragging := false, fileInputValue := "" }) := by
  constructor
  · exact ((handleFileSelect_spec
      { selectedFile := none, uploading := false, uploadStatus := .idle,
        errorMessage := "", successMessage := "", isDragging := false,
        fileInputValue := "" }
      { name := "x.png", mimeType := "image/png" }).1 (by decide)).1
  · exact (handleFileSelect_spec
      { selectedFile := none, uploading := false, uploadStatus := .idle,
        errorMessage := "", successMessage := "", isDragging := false,
        fileInputValue := "" }
      { name := "notes.txt", mimeType := "text/plain" }).2 (by decide)

/-- C4: `uploadDocument` posts the file as multipart form data under the
key `file` to `/upload` and on success returns exactly the response body;
`handleUpload` on a successful upload clears the selected file, resets the
file input, records the success message and passes exactly the returned
filename to the `onUploadSuccess` callback. -/
theorem uploadDocument_handleUpload_success
    (transport : UploadRequest → HttpOutcome UploadResponse) (file : JsFile)
    (st : DUState) (resp : UploadResponse) :
    (uploadRequest file).path = "/upload" ∧
    (uploadRequest file).formData = [("file", file)] ∧
    (transport (uploadRequest file) = .success resp →
      uploadDocument transport file = .ok resp) ∧
    (∀ f, st.selectedFile = some f →
      handleUpload st (.ok resp) =
        ({ st with
            uploading := false
            uploadStatus := .success
            errorMessage := ""
            successMessage := jsOrString resp.message "Document uploaded successfully"
            selectedFile := none
            fileInputValue := "" },
          [resp.filename])) := by
  refine ⟨rfl, rfl, fun h => ?_, fun f hf => ?_⟩
  · unfold uploadDocument
    rw [h]
  · unfold handleUpload
    rw [hf]

/-- C4 witness: the theorem applied to a concrete transport, file, state
and response. -/
theorem uploadDocument_handleUpload_success_witness :
    uploadDocument okUploadTransport { name := "a.txt", mimeType := "text/plain" } =
      .ok { message := "Document uploaded successfully", filename := "a.txt" } ∧
    handleUpload
        { selectedFile := some { name := "a.txt", mimeType := "text/plain" },
          uploading := true, uploadStatus := .idle, errorMessage := "",
          successMessage := "", isDragging := false, fileInputValue := "a.txt" }
        (.ok { message := "Document uploaded successfully", filename := "a.txt" }) =
      ({ selectedFile := none, uploading := false, uploadStatus := .success,
         errorMessage := "", successMessage := "Document uploaded successfully",
         isDragging := false, fileInputValue := "" }, ["a.txt"]) := by
  constructor
  · exact (uploadDocument_handleUpload_success okUploadTransport
      { name := "a.txt", mimeType := "text/plain" }
      { selectedFile := some { name := "a.txt", mimeType := "text/plain" },
        uploading := true, uploadStatus := .idle, errorMessage := "",
        successMessage := "", isDragging := false, fileInputValue := "a.txt" }
      { message := "Document uploaded successfully", filename := "a.txt" }).2.2.1 rfl
  · exact (uploadDocument_handleUpload_success okUploadTransport
      { name := "a.txt", mimeType := "text/plain" }
      { selectedFile := some { name := "a.txt", mimeType := "text/plain" },
        uploading := true, uploadStatus := .idle, errorMessage := "",
        successMessage := "", isDragging := false, fileInputValue := "a.txt" }
      { message := "Document uploaded successfully", filename := "a.txt" }).2.2.2
      { name := "a.txt", mimeType := "text/plain" } rfl

/-- C8: a submit whose input is empty or whitespace-only, or that arrives
while a request is in flight, changes nothing: no question is posted, no
sources update is emitted, and messages, input value and loading flag are
all left as they were. -/
theorem handleSubmit_guard (st : QAState) (now : Nat)
    (result : Except String AskResponse)
    (h : jsTrim st.inputValue = "" ∨ st.isLoading) :
    handleSubmit st now result = { state := st, posts := [], sourcesUpdates := [] } := by
  unfold handleSubmit
  rw [if_pos h]

/-- C8 witness: the theorem applied to a whitespace-only input and to an
in-flight state. -/
theorem handleSubmit_guard_witness :
    handleSubmit { messages := [], inputValue := "   ", isLoading := false } 7
        (.ok { answer := "a", sources := [] }) =
      { state := { messages := [], inputValue := "   ", isLoading := false },
        posts := [], sourcesUpdates := [] } ∧
    handleSubmit { messages := [], inputValue := "hi", isLoading := true } 7
        (.error "e") =
      { state := { messages := [], inputValue := "hi", isLoading := true },
        posts := [], sourcesUpdates := [] } := by
  constructor
  · exact handleSubmit_guard { messages := [], inputValue := "   ", isLoading := false } 7
      (.ok { answer := "a", sources := [] }) (.inl (by decide))
  · exact handleSubmit_guard { messages := [], inputValue := "hi", isLoading := true } 7
      (.error "e") (.inr rfl)

/-- C9: the messages list is append-only, and an accepted submission
appends exactly a user message holding the submitted question followed by
exactly one assistant message — the returned answer with its sources on
success, the error message with no sources on failure. -/
theorem handleSubmit_messages (st : QAState) (now : Nat) :
    (∀ result, ∃ tail,
      (handleSubmit st now result).state.messages = st.messages ++ tail) ∧
    (¬ jsTrim st.inputValue = "" → st.isLoading = false →
      (∀ resp, (handleSubmit st now (.ok resp)).state.messages =
        st.messages ++
          [{ id := toString now, type := .user, content := st.inputValue,
             sources := none, timestamp := now },
           { id := toString (now + 1), type := .assistant, content := resp.answer,
             sources := some resp.sources, timestamp := now }]) ∧
      (∀ msg, (handleSubmit st now (.error msg)).state.messages =
        st.messages ++
          [{ id := toString now, type := .user, content := st.inputValue,
             sources := none, timestamp := now },
           { id := toString (now + 1), type := .assistant, content := msg,
             sources := none, timestamp := now }])) := by
  constructor
  · intro result
    by_cases hg : jsTrim st.inputValue = "" ∨ st.isLoading
    · exact ⟨[], by rw [handleSubmit_guard st now result hg]; simp⟩
    · unfold handleSubmit
      rw [if_neg hg]
      cases result with
      | ok resp => exact ⟨_, rfl⟩
      | error msg => exact ⟨_, rfl⟩
  · intro htrim hload
    have hg : ¬ (jsTrim st.inputValue = "" ∨ st.isLoading) := by
      simp [htrim, hload]
    constructor
    · intro resp
      unfold handleSubmit
      rw [if_neg hg]
    · intro msg
      unfold handleSubmit
      rw [if_neg hg]

/-- C9 witness: the theorem applied to a concrete accepted submission, in
both the success and the failure branch. -/
theorem handleSubmit_messages_witness :
    (handleSubmit { messages := [], inputValue := "why?", isLoading := false } 3
        (.ok { answer := "because", sources := [] })).state.messages =
      [{ id := "3", type := .user, content := "why?", sources := none, timestamp := 3 },
       { id := "4", type := .assistant, content := "because", sources := some [],
         timestamp := 3 }] ∧
    (handleSubmit { messages := [], inputValue := "why?", isLoading := false } 3
        (.error "down")).state.messages =
      [{ id := "3", type := .user, content := "why?", sources := none, timestamp := 3 },
       { id := "4", type := .assistant, content := "down", sources := none,
         timestamp := 3 }] := by
  constructor
  · exact ((handleSubmit_messages
      { messages := [], inputValue := "why?", isLoading := false } 3).2
      (by decide) rfl).1 { answer := "because", sources := [] }
  · exact ((handleSubmit_messages
      { messages := [], inputValue := "why?", isLoading := false } 3).2
      (by decide) rfl).2 "down"

/-- C10: a successful ask emits exactly the response's sources to the
`onSourcesUpdate` callback, `handleSourcesUpdate` replaces the current
sources with exactly that list without touching the uploaded files, and
`handleUploadSuccess` appends exactly the returned filename to the
uploaded-files list without touching the current sources. -/
theorem app_state_updates (app : AppState) (st : QAState) (now : Nat)
    (resp : AskResponse) (filename : String) :
    (¬ jsTrim st.inputValue = "" → st.isLoading = false →
      (handleSubmit st now (.ok resp)).sourcesUpdates = [resp.sources]) ∧
    handleSourcesUpdate app resp.sources =
      { currentSources := resp.sources, uploadedFiles := app.uploadedFiles } ∧
    handleUploadSuccess app filename =
      { currentSources := app.currentSources,
        uploadedFiles := app.uploadedFiles ++ [filename] } := by
  refine ⟨fun htrim hload => ?_, rfl, rfl⟩
  have hg : ¬ (jsTrim st.inputValue = "" ∨ st.isLoading) := by
    simp [htrim, hload]
  unfold handleSubmit
  rw [if_neg hg]

/-- C10 witness: the theorem applied to concrete app and chat states. -/
theorem app_state_updates_witness :
    (handleSubmit { messages := [], inputValue := "why?", isLoading := false } 3
        (.ok { answer := "because",
               sources := [{ text := "ctx", metadata := none }] })).sourcesUpdates =
      [[{ text := "ctx", metadata := none }]] ∧
    handleSourcesUpdate { currentSources := [], uploadedFiles := ["a.txt"] }
        [{ text := "ctx", metadata := none }] =
      { currentSources := [{ text := "ctx", metadata := none }],
        uploadedFiles := ["a.txt"] } ∧
    handleUploadSuccess { currentSources := [], uploadedFiles := ["a.txt"] } "b.pdf" =
      { currentSources := [], uploadedFiles := ["a.txt", "b.pdf"] } := by
  refine ⟨?_, ?_, ?_⟩
  · exact (app_state_updates { currentSources := [], uploadedFiles := ["a.txt"] }
      { messages := [], inputValue := "why?", isLoading := false } 3
      { answer := "because", sources := [{ text := "ctx", metadata := none }] }
      "b.pdf").1 (by decide) rfl
  · exact (app_state_updates { currentSources := [], uploadedFiles := ["a.txt"] }
      { messages := [], inputValue := "why?", isLoading := false } 3
      { answer := "because", sources := [{ text := "ctx", metadata := none }] }
      "b.pdf").2.1
  · exact (app_state_updates { currentSources := [], uploadedFiles := ["a.txt"] }
      { messages := [], inputValue := "why?", isLoading := false } 3
      { answer := "because", sources := [{ text := "ctx", metadata := none }] }
      "b.pdf").2.2

/-- C5: on an empty store, retrieval yields no sources and `answer` still
returns a non-error `Answer` whose source list is empty (the generative
model is still called), and the consuming `SourcesPanel` renders a
zero-length sources list as the normal placeholder state instead of
failing. -/
theorem answer_empty_store (encode : String → List ℚ)
    (generate : String → Except String String) (q : String) (t : String)
    (hgen : generate (buildPrompt q []) = .ok t) :
    answer [] encode generate q = .ok { text := t, sources := [] } ∧
    SourcesPanel [] = { subtitle := "No sources available", body := .placeholder } := by
  constructor
  · have hred : answer [] encode generate q =
        (match generate (buildPrompt q []) with
          | .error msg => .error (.GenerationError msg)
          | .ok text => .ok { text := text, sources := [] } : Except RagError Answer) := rfl
    rw [hred, hgen]
  · rfl

/-- C5 witness: the theorem applied to a concrete encoder, generative
model and question. -/
theorem answer_empty_store_witness :
    answer [] constEncode constGenerate "What color is the sky?" =
      .ok { text := "no answer", sources := [] } ∧
    SourcesPanel [] = { subtitle := "No sources available", body := .placeholder } :=
  answer_empty_store constEncode constGenerate "What color is the sky?" "no answer" rfl

/-- Deduplication returns a sublist, so order and pairwise properties are
preserved. -/
theorem dedupById_sublist (seen : List Nat) (l : List Source) :
    (dedupById seen l).Sublist l := by
  induction l generalizing seen with
  | nil => simp [dedupById]
  | cons s rest ih =>
    unfold dedupById
    by_cases h : seen.contains s.id
    · rw [if_pos h]
      exact (ih seen).cons s
    · rw [if_neg h]
      exact (ih (s.id :: seen)).cons₂ s

/-- The ranking on scored records transfers along `toSource`. -/
theorem recordRank_toSource {a b : VectorRecord × ℚ} (h : recordRank a b) :
    sourceRank (toSource a) (toSource b) := h

/-- C7: for every store state, query vector, positive top-k and threshold,
the no-threshold `search` result is sorted by descending similarity score
with ties broken by ascending id, and the thresholded result is exactly
the filter of it that keeps the entries scoring at least the threshold —
an order-preserving sublist, itself still sorted, with no surviving score
below the threshold. -/
theorem search_sorted_and_threshold (store : List VectorRecord)
    (query_vector : List ℚ) (top_k : Int) (t : ℚ) (hk : 0 < top_k) :
    ∃ l, search store query_vector top_k none = .ok l ∧
      l.Pairwise sourceRank ∧
      search store query_vector top_k (some t) = .ok (l.filter (fun s => t ≤ s.score)) ∧
      (l.filter (fun s => t ≤ s.score)).Sublist l ∧
      (l.filter (fun s => t ≤ s.score)).Pairwise sourceRank ∧
      ∀ s ∈ l.filter (fun s => t ≤ s.score), t ≤ s.score := by
  have hne : ¬ top_k ≤ 0 := by omega
  have hq : storeQuery store query_vector top_k =
      .ok (((store.map (fun r => (r, dotProduct query_vector r.vector))).insertionSort
        recordRank).take top_k.toNat) := by
    unfold storeQuery
    rw [if_neg hne]
  refine ⟨dedupById []
    ((((store.map (fun r => (r, dotProduct query_vector r.vector))).insertionSort
      recordRank).take top_k.toNat).map toSource), ?_, ?_, ?_, ?_, ?_, ?_⟩
  · unfold search
    rw [hq]
    rfl
  · have hsorted : (((store.map (fun r => (r, dotProduct query_vector r.vector))).insertionSort
        recordRank)).Pairwise recordRank :=
      List.sorted_insertionSort recordRank _
    have htake := hsorted.sublist (List.take_sublist top_k.toNat _)
    have hmap := htake.map toSource (fun a b h => recordRank_toSource h)
    exact hmap.sublist (dedupById_sublist [] _)
  · unfold search
    rw [hq]
    rfl
  · exact List.filter_sublist _
  · have hsorted : (((store.map (fun r => (r, dotProduct query_vector r.vector))).insertionSort
        recordRank)).Pairwise recordRank :=
      List.sorted_insertionSort recordRank _
    have htake := hsorted.sublist (List.take_sublist top_k.toNat _)
    have hmap := htake.map toSource (fun a b h => recordRank_toSource h)
    exact (hmap.sublist (dedupById_sublist [] _)).sublist (List.filter_sublist _)
  · intro s hs
    have := (List.mem_filter.mp hs).2
    exact of_decide_eq_true this

/-- A three-record demo store. -/
def demoStore : List VectorRecord :=
  [{ id := 1, vector := [1, 0], text := "b", metadata := [] },
   { id := 0, vector := [1, 0], text := "a", metadata := [] },
   { id := 2, vector := [0, 1], text := "c", metadata := [] }]

/-- The demo query vector. -/
def demoQuery : List ℚ := [1, 0]

/-- The expected ranked result on the demo store: two tied top scores
ordered by ascending id, then the low score. -/
def demoResult : List Source :=
  [{ id := 0, text := "a", metadata := [], score := 1 },
   { id := 1, text := "b", metadata := [], score := 1 },
   { id := 2, text := "c", metadata := [], score := 0 }]

/-- C7 witness: the theorem applied to the demo store with top-k 3 and
threshold 1; the returned list is the concrete ranked result. -/
theorem search_sorted_and_threshold_witness :
    search demoStore demoQuery 3 none = .ok demoResult ∧
    demoResult.Pairwise sourceRank ∧
    search demoStore demoQuery 3 (some 1) =
      .ok (demoResult.filter (fun s => (1 : ℚ) ≤ s.score)) := by
  obtain ⟨l, h1, h2, h3, _, _, _⟩ :=
    search_sorted_and_threshold demoStore demoQuery 3 1 (by decide)
  have hconc : search demoStore demoQuery 3 none = .ok demoResult := by
    norm_num [search, storeQuery, demoStore, demoQuery, demoResult, dotProduct,
      recordRank, toSource, dedupById, List.insertionSort, List.orderedInsert,
      Except.map, List.take, List.contains]
  have hl : l = demoResult := Except.ok.inj ((h1.symm).trans hconc)
  subst hl
  exact ⟨hconc, h2, h3⟩

/-- With enough fuel, the window loop starting inside the text produces a
first chunk anchored at the current offset with the sliding-window stop. -/
theorem chunkGo_cons (cs : List Char) (size ov fuel start index : Nat)
    (hlt : start < cs.length) (hfuel : cs.length ≤ start + fuel) :
    ∃ rest, chunkGo cs size ov fuel start index =
      { index := index, start := start, stop := min (start + size) cs.length,
        text := ((cs.drop start).take (min (start + size) cs.length - start)).asString }
        :: rest := by
  cases fuel with
  | zero => omega
  | succ fuel =>
    simp only [chunkGo, if_pos hlt]
    by_cases hstop : min (start + size) cs.length = cs.length
    · exact ⟨[], by rw [if_pos hstop]⟩
    · exact ⟨_, by rw [if_neg hstop]⟩

/-- With enough fuel and a valid overlap, consecutive chunks of the window
loop advance by exactly `size - ov`, so their offset ranges intersect in
exactly `ov` characters. -/
theorem chunkGo_chain (cs : List Char) (size ov : Nat) (hv : ov < size) :
    ∀ fuel start index, cs.length ≤ start + fuel →
    List.Chain' (fun a b => a.start < b.start ∧ a.stop ≤ b.stop ∧ a.stop = b.start + ov)
      (chunkGo cs size ov fuel start index) := by
  intro fuel
  induction fuel with
  | zero =>
    intro start index _
    simp [chunkGo]
  | succ fuel ih =>
    intro start index hfuel
    by_cases hlt : start < cs.length
    · simp only [chunkGo, if_pos hlt]
      by_cases hstop : min (start + size) cs.length = cs.length
      · rw [if_pos hstop]
        exact List.chain'_singleton _
      · rw [if_neg hstop]
        have hsz : start + size < cs.length := by omega
        have hlt2 : start + (size - ov) < cs.length := by omega
        obtain ⟨rest, hrest⟩ :=
          chunkGo_cons cs size ov fuel (start + (size - ov)) (index + 1) hlt2 (by omega)
        rw [hrest]
        refine List.chain'_cons.mpr ⟨⟨?_, ?_, ?_⟩, ?_⟩
        · show start < start + (size - ov)
          omega
        · show min (start + size) cs.length ≤
            min (start + (size - ov) + size) cs.length
          omega
        · show min (start + size) cs.length = start + (size - ov) + ov
          omega
        · rw [← hrest]
          exact ih (start + (size - ov)) (index + 1) (by omega)
    · simp [chunkGo, hlt]

/-- With enough fuel, a valid overlap and a remaining tail longer than the
overlap, the window loop produces exactly the ceiling count the spec
predicts for the remaining text. -/
theorem chunkGo_length (cs : List Char) (size ov : Nat) (hv : ov < size) :
    ∀ fuel start index, cs.length ≤ start + fuel → start + ov < cs.length →
    (chunkGo cs size ov fuel start index).length =
      (cs.length - start - ov + (size - ov) - 1) / (size - ov) := by
  intro fuel
  induction fuel with
  | zero =>
    intro start index hfuel hov
    omega
  | succ fuel ih =>
    intro start index hfuel hov
    have hlt : start < cs.length := by omega
    simp only [chunkGo, if_pos hlt]
    by_cases hstop : min (start + size) cs.length = cs.length
    · rw [if_pos hstop]
      have hle : cs.length ≤ start + size := by omega
      have harg : cs.length - start - ov + (size - ov) - 1 =
          (cs.length - start - ov - 1) + (size - ov) := by omega
      rw [List.length_singleton, harg, Nat.add_div_right _ (by omega : 0 < size - ov),
        Nat.div_eq_of_lt (by omega)]
    · rw [if_neg hstop]
      have hsz : start + size < cs.length := by omega
      rw [List.length_cons, ih (start + (size - ov)) (index + 1) (by omega) (by omega)]
      have harg : cs.length - start - ov + (size - ov) - 1 =
          (cs.length - (start + (size - ov)) - ov + (size - ov) - 1) + (size - ov) := by
        omega
      rw [harg, Nat.add_div_right _ (by omega : 0 < size - ov)]

/-- C6 counterexample: a one-character text under `chunk_size = 20`,
`overlap = 5` satisfies the claim's precondition and produces one chunk,
while the claimed ceiling formula gives zero — and with a boundary-snap
lookback of zero there is no snap tolerance to absorb the difference. -/
theorem chunk_count_counterexample :
    chunk "a" 20 5 = .ok [{ index := 0, start := 0, stop := 1, text := "a" }] ∧
    specChunkCount "a".length 20 5 = 0 ∧
    ([{ index := 0, start := 0, stop := 1, text := "a" }] : List Chunk).length ≠
      specChunkCount "a".length 20 5 := by
  refine ⟨?_, rfl, by decide⟩
  rfl

/-- C6 (amended): invalid configurations fail with
`InvalidConfiguration`; under a valid configuration every pair of
consecutive chunks overlaps by exactly the configured overlap; and for
text that is not whitespace-only and strictly longer than the overlap, the
chunk count equals the ceiling of
`(len(text) - overlap) / (chunk_size - overlap)`. -/
theorem chunk_spec (text : String) (chunk_size overlap : Nat) :
    (¬ (0 < chunk_size ∧ overlap < chunk_size) →
      chunk text chunk_size overlap = .error .InvalidConfiguration) ∧
    (∀ cs, chunk text chunk_size overlap = .ok cs →
      List.Chain' (fun a b => a.start < b.start ∧ a.stop ≤ b.stop ∧
        a.stop = b.start + overlap) cs) ∧
    (overlap < text.length →
      text.toList.all (fun c => c.isWhitespace) = false →
      ∀ cs, chunk text chunk_size overlap = .ok cs →
      cs.length = specChunkCount text.length chunk_size overlap) := by
  refine ⟨fun hbad => ?_, fun cs hcs => ?_, fun hlen hws cs hcs => ?_⟩
  · unfold chunk
    rw [if_neg hbad]
  · by_cases hconf : 0 < chunk_size ∧ overlap < chunk_size
    · unfold chunk at hcs
      rw [if_pos hconf] at hcs
      by_cases hws : text.toList.all (fun c => c.isWhitespace)
      · rw [if_pos hws] at hcs
        cases Except.ok.inj hcs
        simp
      · rw [if_neg hws] at hcs
        cases Except.ok.inj hcs
        exact chunkGo_chain text.toList chunk_size overlap hconf.2
          text.toList.length 0 0 (by omega)
    · unfold chunk at hcs
      rw [if_neg hconf] at hcs
      exact absurd hcs (by simp)
  · by_cases hconf : 0 < chunk_size ∧ overlap < chunk_size
    · unfold chunk at hcs
      rw [if_pos hconf, if_neg (by rw [hws]; simp)] at hcs
      cases Except.ok.inj hcs
      have hlen' : 0 + overlap < text.toList.length := by
        have heq : text.length = text.toList.length := rfl
        omega
      rw [chunkGo_length text.toList chunk_size overlap hconf.2
        text.toList.length 0 0 (by omega) hlen']
      have heq : text.toList.length = text.length := rfl
      rw [heq]
      simp only [specChunkCount, Nat.sub_zero]
    · unfold chunk at hcs
      rw [if_neg hconf] at hcs
      exact absurd hcs (by simp)

/-- The two chunks of the spec's end-to-end example text under
`chunk_size = 20`, `overlap = 5`. -/
def theSkyChunks : List Chunk :=
  [{ index := 0, start := 0, stop := 20, text := "The sky is blue. Gra" },
   { index := 1, start := 15, stop := 32, text := ". Grass is green." }]

/-- C6 witness: the theorem applied to an invalid configuration and to the
spec's end-to-end example, whose two chunks match the ceiling formula. -/
theorem chunk_spec_witness :
    chunk "hi, world" 0 0 = .error .InvalidConfiguration ∧
    theSkyChunks.length = specChunkCount "The sky is blue. Grass is green.".length 20 5 := by
  constructor
  · exact (chunk_spec "hi, world" 0 0).1 (by decide)
  · exact (chunk_spec "The sky is blue. Grass is green." 20 5).2.2
      (by decide) (by decide) theSkyChunks rfl

end EndeeRag
